import Mathlib

/-
  Verification development for the NAMASTE terminology-mapping service.

  The JavaScript sources are shallowly embedded as pure Lean functions:
  * strings are Lean strings (ASCII assumptions: JS toLowerCase agrees with
    Char.toLower on ASCII input);
  * the relational store is an explicit record of lists; Sequelize findOne
    is modelled as the first matching list element, findAll as filter;
  * MySQL LIKE comparisons and ORDER BY on text columns use the default
    case-insensitive collation, modelled by lowercasing both sides;
  * numeric confidence scores are rationals.
-/

section ScorerModel

attribute [local semireducible] Rat.mul Rat.inv Rat.add Rat.sub

/-! ### JavaScript string primitives -/

/-- JS word character class, the regex class backslash-w: ASCII letters,
digits and underscore. -/
def isWordChar (c : Char) : Bool :=
  c.isAlphanum || c = '_'

/-- Check that list t starts with list q (JS String.startsWith on the
underlying character lists). -/
def listStarts (t q : List Char) : Bool :=
  q.isPrefixOf t

/-- JS t.startsWith(q). -/
def jsStartsWith (t q : String) : Bool :=
  listStarts t.toList q.toList

/-- JS t.includes(q): q occurs as a contiguous substring of t. -/
def jsIncludes (t q : String) : Bool :=
  (List.range (t.toList.length + 1)).any fun i => listStarts (t.toList.drop i) q.toList

/-- JS s.toLowerCase() on ASCII input, computed character by character so
that it reduces in the kernel. -/
def lowerStr (s : String) : String :=
  (s.toList.map Char.toLower).asString

/-- One step of the whitespace splitter: accumulate finished tokens, the
current token in reverse, and whether the previous character was
whitespace. -/
def splitStep : (List String × List Char × Bool) → Char → (List String × List Char × Bool)
  | (done, cur, inWs), c =>
    if c.isWhitespace then
      if inWs then (done, cur, true)
      else (done ++ [cur.reverse.asString], [], true)
    else (done, c :: cur, false)

/-- JS s.split(regex of one-or-more whitespace): splits on maximal
whitespace runs; a leading or trailing run yields an empty first or last
element, and the empty string yields a single empty element. -/
def jsSplitWs (s : String) : List String :=
  let r := s.toList.foldl splitStep ([], [], false)
  r.1 ++ [r.2.1.reverse.asString]

/-- Drop leading and trailing whitespace from a character list. -/
def trimChars (l : List Char) : List Char :=
  ((l.dropWhile Char.isWhitespace).reverse.dropWhile Char.isWhitespace).reverse

/-- JS s.trim(). -/
def jsTrim (s : String) : String :=
  (trimChars s.toList).asString

/-- Word character test for an optional character; positions outside the
string count as non-word. -/
def wordAt (t : List Char) (i : Nat) : Bool :=
  match t.get? i with
  | some c => isWordChar c
  | none => false

/-- JS regex word boundary at position i of t: the character classes on the
two sides of the position differ. -/
def boundaryAt (t : List Char) (i : Nat) : Bool :=
  match i with
  | 0 => wordAt t 0
  | j + 1 => wordAt t j != wordAt t (j + 1)

/-- Test of the JS regex that wraps the literal pattern q between two word
boundaries against t. Faithful to JS for patterns that contain no regex
metacharacter (the service builds the pattern by string concatenation
without escaping; see regexSafe). -/
def wholeWordTest (t q : String) : Bool :=
  let tc := t.toList
  let qc := q.toList
  (List.range (tc.length + 1)).any fun i =>
    listStarts (tc.drop i) qc && boundaryAt tc i && boundaryAt tc (i + qc.length)

/-- Characters that are metacharacters inside a JS regular expression. -/
def regexMeta : List Char :=
  ['\\', '^', '$', '.', '|', '?', '*', '+', '(', ')', '[', ']', '\x7b', '\x7d']

/-- A string that can be spliced into a JS regex as a literal: none of its
characters is a regex metacharacter. -/
def regexSafe (s : String) : Bool :=
  s.toList.all fun c => !regexMeta.contains c

/-! ### The similarity scorers

The repository contains two hand-duplicated copies of the relevance scorer
and a third shared confidence helper. -/

/-- Embedding of calculateRelevanceScore from the search controller
(src/controllers/search.controller.js, lines 166-189): four tiers, all on
lowercased strings, with a floor of 3/10 on the word-overlap tier.
The empty-string guard models the JS falsiness test on the two inputs. -/
def SearchController.calculateRelevanceScore (query text : String) : ℚ :=
  if query = "" || text = "" then 0
  else
    let queryLower := lowerStr query
    let textLower := lowerStr text
    if textLower = queryLower then 1
    else if jsStartsWith textLower queryLower then 9/10
    else if jsIncludes textLower queryLower then 7/10
    else
      let queryWords := jsSplitWs queryLower
      let textWords := jsSplitWs textLower
      let matchingWords := queryWords.filter fun word =>
        textWords.any fun textWord => jsIncludes textWord word
      max (3/10) ((matchingWords.length : ℚ) / (queryWords.length : ℚ) * (6/10))

/-- Embedding of calculateRelevanceScore from the NAMASTE service
(src/services/mapping.service.js NamasteService part, lines 1524-1551):
same as the search-controller copy except for an extra whole-word tier
worth 8/10 between the starts-with and the contains tiers. -/
def NamasteService.calculateRelevanceScore (query text : String) : ℚ :=
  if query = "" || text = "" then 0
  else
    let queryLower := lowerStr query
    let textLower := lowerStr text
    if textLower = queryLower then 1
    else if jsStartsWith textLower queryLower then 9/10
    else if wholeWordTest textLower queryLower then 8/10
    else if jsIncludes textLower queryLower then 7/10
    else
      let queryWords := jsSplitWs queryLower
      let textWords := jsSplitWs textLower
      let matchingWords := queryWords.filter fun word =>
        textWords.any fun textWord => jsIncludes textWord word
      max (3/10) ((matchingWords.length : ℚ) / (queryWords.length : ℚ) * (6/10))

/-- Modelled from the spec: the shared similarity scorer
helpers.calculateMappingConfidence lives in src/utils/helpers.js, which is
not part of the provided sources; only its callers are. Section 4.1 of the
spec defines it: 0 on an empty input, then on the lowercased and trimmed
strings, 1 when equal, 9/10 when one is a prefix of the other, 7/10 when
one is a substring of the other, and otherwise the word-overlap score of
the tokens of the first argument against the tokens of the second with a
floor of 3/10. -/
def calculateMappingConfidence (a b : String) : ℚ :=
  if a = "" || b = "" then 0
  else
    let aNorm := jsTrim (lowerStr a)
    let bNorm := jsTrim (lowerStr b)
    if aNorm = bNorm then 1
    else if jsStartsWith bNorm aNorm || jsStartsWith aNorm bNorm then 9/10
    else if jsIncludes bNorm aNorm || jsIncludes aNorm bNorm then 7/10
    else
      let aWords := jsSplitWs aNorm
      let bWords := jsSplitWs bNorm
      let matched := aWords.filter fun word =>
        bWords.any fun other => jsIncludes other word
      max (3/10) ((matched.length : ℚ) / (aWords.length : ℚ) * (6/10))


/-! ### Data model

Rows of the three relevant tables, with the columns the specified
operations read or write. Timestamps and free-text metadata columns that
no claim mentions are omitted. -/

/-- Row of namaste_codes (src/models/NamesteCode.js): code is unique. -/
structure NamasteEntry where
  code : String
  display_name : String
  system_type : String
  status : String
deriving Repr, DecidableEq

/-- Row of icd11_codes: an entry is addressable by its primary icd_id or by
its secondary code column. -/
structure ICD11Entry where
  icd_id : String
  code : String
  title : String
  module : String
  status : String
deriving Repr, DecidableEq

/-- Row of code_mappings (src/models/CodeMapping.js). The verified_at
timestamp is not modelled; verified_by stands for the verification marker. -/
structure Mapping where
  id : Nat
  namaste_code : String
  icd11_code : String
  mapping_type : String
  confidence_score : ℚ
  notes : Option String
  verified_by : Option Nat
  is_active : Bool
deriving Repr, DecidableEq

/-- The relational store: the three tables plus the auto-increment counter
for mapping ids. Sequelize findOne is modelled as the first matching list
element and findAll as filter. -/
structure Db where
  namaste : List NamasteEntry
  icd11 : List ICD11Entry
  mappings : List Mapping
  nextId : Nat
deriving Repr, DecidableEq

/-- findOne on namaste_codes with a code and active-status filter. -/
def findNamasteActive (db : Db) (code : String) : Option NamasteEntry :=
  db.namaste.find? fun n => n.code == code && n.status == "active"

/-- findOne on icd11_codes matching the argument against icd_id or code,
restricted to active rows. -/
def findIcd11Active (db : Db) (icd11Code : String) : Option ICD11Entry :=
  db.icd11.find? fun e => (e.icd_id == icd11Code || e.code == icd11Code) && e.status == "active"

/-- findOne on code_mappings for an active mapping of the given pair. -/
def findActiveMappingPair (db : Db) (namasteCode icd11Id : String) : Option Mapping :=
  db.mappings.find? fun m =>
    m.namaste_code == namasteCode && m.icd11_code == icd11Id && m.is_active

/-- The belongsTo association namasteCodeDetails: join by code, with no
status filter. -/
def namasteDetails (db : Db) (m : Mapping) : Option NamasteEntry :=
  db.namaste.find? fun n => n.code == m.namaste_code

/-- The belongsTo association icd11CodeDetails: join by icd_id, with no
status filter. -/
def icd11Details (db : Db) (m : Mapping) : Option ICD11Entry :=
  db.icd11.find? fun e => e.icd_id == m.icd11_code

/-- MySQL LIKE with wildcards around the pattern under the default
case-insensitive collation: containment after lowercasing both sides. -/
def likeCI (t pat : String) : Bool :=
  jsIncludes (lowerStr t) (lowerStr pat)

/-- Lexicographic order on character lists by code point, with equal
characters recursing. -/
def charListLe : List Char → List Char → Bool
  | [], _ => true
  | _ :: _, [] => false
  | a :: as, b :: bs => if a = b then charListLe as bs else Nat.ble a.toNat b.toNat

/-- SQL ORDER BY on a text column under the default case-insensitive
collation. -/
def strLeCI (a b : String) : Bool :=
  charListLe (lowerStr a).toList (lowerStr b).toList

/-- Insert x into a list assumed sorted by le, keeping it sorted. -/
def insertSorted (le : α → α → Bool) (x : α) : List α → List α
  | [] => [x]
  | y :: ys => if le x y then x :: y :: ys else y :: insertSorted le x ys

/-- Insertion sort by a Boolean comparison; models the ORDER BY clause of
the candidate queries. -/
def sortByBool (le : α → α → Bool) : List α → List α
  | [] => []
  | x :: xs => insertSorted le x (sortByBool le xs)

/-! ### Suggestion engine (src/services/mapping.service.js, MappingService) -/

/-- One transient mapping suggestion as returned by findSuggestedMappings. -/
structure Suggestion where
  icd11_code : String
  icd11_title : String
  confidence_score : ℚ
  suggested_mapping_type : String
deriving Repr, DecidableEq

/-- JS s.split(sep) for a single-character separator: no run merging, so
consecutive separators produce empty elements. -/
def jsSplitChar (sep : Char) (s : String) : List String :=
  let r := s.toList.foldl
    (fun (st : List String × List Char) ch =>
      if ch = sep then (st.1 ++ [st.2.reverse.asString], []) else (st.1, ch :: st.2))
    ([], [])
  r.1 ++ [r.2.reverse.asString]

/-- Embedding of MappingService.suggestMappingType: equivalent when equal
or one contains the other, then narrower or broader by word count on
single-space splits, and related otherwise. -/
def MappingService.suggestMappingType (sourceDisplay targetDisplay : String) : String :=
  let source := lowerStr sourceDisplay
  let target := lowerStr targetDisplay
  if source = target || jsIncludes source target || jsIncludes target source then "equivalent"
  else if (jsSplitChar ' ' source).length > (jsSplitChar ' ' target).length then "narrower"
  else if (jsSplitChar ' ' target).length > (jsSplitChar ' ' source).length then "broader"
  else "related"

/-- Embedding of MappingService.findSuggestedMappings (lines 52 to 96):
resolve the active source entry, extract its display-name terms longer
than two characters, fetch active tm2 candidates whose title is LIKE any
term ordered by title ascending with the given limit, and score each
candidate. -/
def MappingService.findSuggestedMappings (db : Db) (namasteCode : String) (limit : Nat) :
    Except String (List Suggestion) :=
  match findNamasteActive db namasteCode with
  | none => .error "NAMASTE code not found"
  | some namasteEntity =>
    let searchTerms := (jsSplitWs (lowerStr namasteEntity.display_name)).filter
      fun term => 2 < term.toList.length
    let candidates := db.icd11.filter fun e =>
      (searchTerms.any fun term => likeCI e.title term) && e.module == "tm2" && e.status == "active"
    let ordered := sortByBool (fun a b => strLeCI a.title b.title) candidates
    .ok ((ordered.take limit).map fun s =>
      { icd11_code := s.icd_id
        icd11_title := s.title
        confidence_score := calculateMappingConfidence namasteEntity.display_name s.title
        suggested_mapping_type := MappingService.suggestMappingType namasteEntity.display_name s.title })

/-! ### FHIR translate (src/services/mapping.service.js, FhirService) -/

/-- The two failure modes of translateCode. -/
inductive TranslateErr where
  | notFound
  | unsupported
deriving Repr, DecidableEq

/-- One element of the translate result: equivalence plus a Coding-shaped
concept. The display is an Option: the JS code dereferences the joined
association and would throw on a dangling reference; no claim exercises
that path. -/
structure TranslateMatch where
  equivalence : String
  system : String
  code : String
  display : Option String
deriving Repr, DecidableEq

/-- Embedding of FhirService.translateCode (lines 506 to 551): dispatch on
substring containment of namaste then icd in the system identifier,
resolve the code among active rows, and project every active mapping of
the code; an unrecognized system identifier is rejected. -/
def FhirService.translateCode (db : Db) (system code : String) :
    Except TranslateErr (List TranslateMatch) :=
  if jsIncludes system "namaste" then
    match db.namaste.find? (fun n => n.code == code && n.status == "active") with
    | none => .error .notFound
    | some _ =>
      let mappings := db.mappings.filter fun m => m.namaste_code == code && m.is_active
      .ok (mappings.map fun m =>
        { equivalence := m.mapping_type
          system := "http://id.who.int/icd/entity"
          code := m.icd11_code
          display := (icd11Details db m).map ICD11Entry.title })
  else if jsIncludes system "icd" then
    match db.icd11.find? (fun e => e.icd_id == code && e.status == "active") with
    | none => .error .notFound
    | some _ =>
      let mappings := db.mappings.filter fun m => m.icd11_code == code && m.is_active
      .ok (mappings.map fun m =>
        let details := namasteDetails db m
        { equivalence := m.mapping_type
          system := "http://terminology.hl7.org/CodeSystem/namaste-"
            ++ ((details.map NamasteEntry.system_type).getD "")
          code := m.namaste_code
          display := details.map NamasteEntry.display_name })
  else .error .unsupported

/-! ### Mapping creation (src/unnamed/part_000 MappingCreator and
src/controllers/mapping.controller.js MappingController) -/

/-- The running counters kept by MappingCreator. -/
structure Stats where
  processed : Nat
  created : Nat
  skipped : Nat
  errors : Nat
deriving Repr, DecidableEq

/-- Fresh counters, as produced by resetStats. -/
def Stats.zero : Stats :=
  { processed := 0, created := 0, skipped := 0, errors := 0 }

/-- Embedding of MappingCreator.createMapping (part_000 lines 16 to 82):
resolve source and target among active rows, return the existing active
mapping of the pair as a skipped no-op when one exists, and otherwise
persist a new active mapping. The JS expression confidenceScore-or-helper
uses a falsiness test, so an absent value and an explicit 0 both fall back
to the computed score. -/
def MappingCreator.createMapping (db : Db) (stats : Stats) (namasteCode icd11Code : String)
    (mappingType : String) (confidenceScore : Option ℚ) (notes : Option String) :
    Except String Mapping × Db × Stats :=
  match findNamasteActive db namasteCode with
  | none =>
    (.error "NAMASTE code not found or inactive", db,
      { stats with errors := stats.errors + 1, processed := stats.processed + 1 })
  | some namasteEntity =>
    match findIcd11Active db icd11Code with
    | none =>
      (.error "ICD-11 code not found or inactive", db,
        { stats with errors := stats.errors + 1, processed := stats.processed + 1 })
    | some icd11Entity =>
      match findActiveMappingPair db namasteCode icd11Entity.icd_id with
      | some existingMapping =>
        (.ok existingMapping, db,
          { stats with skipped := stats.skipped + 1, processed := stats.processed + 1 })
      | none =>
        let fallback := calculateMappingConfidence namasteEntity.display_name icd11Entity.title
        let calculatedConfidence :=
          match confidenceScore with
          | some c => if c = 0 then fallback else c
          | none => fallback
        let m : Mapping :=
          { id := db.nextId
            namaste_code := namasteCode
            icd11_code := icd11Entity.icd_id
            mapping_type := mappingType
            confidence_score := calculatedConfidence
            notes := notes
            verified_by := none
            is_active := true }
        (.ok m,
          { db with mappings := db.mappings ++ [m], nextId := db.nextId + 1 },
          { stats with created := stats.created + 1, processed := stats.processed + 1 })

/-- Outcome of the HTTP mapping-creation handler, keeping only the
response category. -/
inductive CtrlOutcome where
  | badRequest (msg : String)
  | conflict
  | created (m : Mapping)
deriving Repr, DecidableEq

/-- Embedding of MappingController.createMapping (lines 10 to 127): the
single-create path rejects a duplicate active pair with a 409 conflict
instead of skipping, and stamps the caller as verifier. The JS falsiness
defaults mapping_type-or-equivalent and confidence-or-computed are kept:
an empty-string type and a zero confidence fall back. -/
def MappingController.createMapping (db : Db) (namasteCode icd11Code : String)
    (mappingType : Option String) (confidenceScore : Option ℚ) (notes : Option String)
    (userId : Nat) : CtrlOutcome × Db :=
  if namasteCode = "" || icd11Code = "" then
    (.badRequest "namaste_code and icd11_code are required", db)
  else
    match findNamasteActive db namasteCode with
    | none => (.badRequest "NAMASTE code not found or inactive", db)
    | some namasteExists =>
      match findIcd11Active db icd11Code with
      | none => (.badRequest "ICD-11 code not found or inactive", db)
      | some icd11Exists =>
        match findActiveMappingPair db namasteCode icd11Exists.icd_id with
        | some _ => (.conflict, db)
        | none =>
          let fallback := calculateMappingConfidence namasteExists.display_name icd11Exists.title
          let calculatedConfidence :=
            match confidenceScore with
            | some c => if c = 0 then fallback else c
            | none => fallback
          let m : Mapping :=
            { id := db.nextId
              namaste_code := namasteCode
              icd11_code := icd11Exists.icd_id
              mapping_type :=
                match mappingType with
                | some t => if t = "" then "equivalent" else t
                | none => "equivalent"
              confidence_score := calculatedConfidence
              notes := notes
              verified_by := some userId
              is_active := true }
          (.created m, { db with mappings := db.mappings ++ [m], nextId := db.nextId + 1 })

/-! ### Bulk automatic mapping and validation (part_000) -/

/-- JS number.toFixed(2) for the nonnegative scores of this code base:
round to hundredths and render with two decimals. -/
def toFixed2 (q : ℚ) : String :=
  let r := (q * 100 + 1/2).floor.toNat
  toString (r / 100) ++ "." ++ toString ((r / 10) % 10) ++ toString (r % 10)

/-- The note attached by createAutomaticMappings, carrying the rendered
confidence score. -/
def autoNote (score : ℚ) : String :=
  "Automatically generated mapping (confidence: " ++ toFixed2 score ++ ")"

/-- One step of the best-candidate scan inside createAutomaticMappings:
keep the candidate when its score beats the running best and clears the
threshold. -/
def bestStep (display : String) (threshold : ℚ) (p : Option ICD11Entry × ℚ)
    (icd : ICD11Entry) : Option ICD11Entry × ℚ :=
  let score := calculateMappingConfidence display icd.title
  if p.2 < score ∧ threshold ≤ score then (some icd, score) else p

/-- The best similarity score of a source display name against every
candidate title, with no threshold: the quantity the spec calls the best
candidate score. -/
def bestCandidateScore (icd11Codes : List ICD11Entry) (display : String) : ℚ :=
  icd11Codes.foldl (fun b icd => max b (calculateMappingConfidence display icd.title)) 0

/-- The active tm2 candidate pool scanned by createAutomaticMappings. -/
def tm2Candidates (db : Db) : List ICD11Entry :=
  db.icd11.filter fun e => e.status == "active" && e.module == "tm2"

/-- The loop body of createAutomaticMappings over one source entry: scan
the prefetched candidates for the best score meeting the threshold and,
when one exists, create an equivalent mapping through createMapping with
the score as confidence and in the note, ignoring the call's outcome. -/
def autoStep (threshold : ℚ) (icd11Codes : List ICD11Entry) (acc : Db × Stats)
    (n : NamasteEntry) : Db × Stats :=
  let best := icd11Codes.foldl (bestStep n.display_name threshold) (none, 0)
  match best.1 with
  | none => acc
  | some bestMatch =>
    let r := MappingCreator.createMapping acc.1 acc.2 n.code bestMatch.icd_id
      "equivalent" (some best.2) (some (autoNote best.2))
    (r.2.1, r.2.2)

/-- Embedding of MappingCreator.createAutomaticMappings (part_000 lines
204 to 261): for every active source entry scan the active tm2 candidates
for the best score meeting the threshold and create an equivalent mapping
through createMapping, continuing past per-item failures. -/
def MappingCreator.createAutomaticMappings (db : Db) (threshold : ℚ) : Db × Stats :=
  (db.namaste.filter fun n => n.status == "active").foldl
    (autoStep threshold (tm2Candidates db)) (db, Stats.zero)

/-- One recorded validation issue. -/
structure ValidationIssue where
  mapping_id : Nat
  issue : String
deriving Repr, DecidableEq

/-- The report produced by validateMappings. -/
structure ValidationReport where
  valid : Nat
  invalid : Nat
  issues : List ValidationIssue
deriving Repr, DecidableEq

/-- Per-mapping step of validateMappings: a missing or inactive source or
target reference makes the mapping invalid with an issue; otherwise a
recomputed confidence drifting by more than 3/10 records an advisory
issue and the mapping still counts as valid. -/
def validateStep (db : Db) (acc : ValidationReport) (m : Mapping) : ValidationReport :=
  match namasteDetails db m with
  | none =>
    { acc with invalid := acc.invalid + 1
               issues := acc.issues ++ [⟨m.id, "NAMASTE code not found or inactive"⟩] }
  | some n =>
    if n.status != "active" then
      { acc with invalid := acc.invalid + 1
                 issues := acc.issues ++ [⟨m.id, "NAMASTE code not found or inactive"⟩] }
    else
      match icd11Details db m with
      | none =>
        { acc with invalid := acc.invalid + 1
                   issues := acc.issues ++ [⟨m.id, "ICD-11 code not found or inactive"⟩] }
      | some i =>
        if i.status != "active" then
          { acc with invalid := acc.invalid + 1
                     issues := acc.issues ++ [⟨m.id, "ICD-11 code not found or inactive"⟩] }
        else
          let recalculated := calculateMappingConfidence n.display_name i.title
          let acc2 :=
            if 3/10 < |recalculated - m.confidence_score| then
              { acc with issues := acc.issues ++ [⟨m.id, "Confidence score significantly different"⟩] }
            else acc
          { acc2 with valid := acc2.valid + 1 }

/-- Embedding of MappingCreator.validateMappings (part_000 lines 264 to
326): fold the per-mapping check over the active mappings. The function
issues no update to the store, so the database component of the result is
returned unchanged. -/
def MappingCreator.validateMappings (db : Db) : ValidationReport × Db :=
  ((db.mappings.filter Mapping.is_active).foldl (validateStep db) ⟨0, 0, []⟩, db)

deriving instance DecidableEq for Except

/-! ### Claims about the similarity scorer -/

/-- The token tier of claim C2, in the words of the spec: a token of a is
matched when some whitespace token of b contains it as a substring, and
the result is the matched fraction scaled by 6/10 with a floor of 3/10. -/
def c2TokenScore (a b : String) : ℚ :=
  let aTokens := jsSplitWs (lowerStr a)
  let bTokens := jsSplitWs (lowerStr b)
  let matchedTokens := aTokens.countP fun tok => bTokens.any fun other => jsIncludes other tok
  max (3/10) ((matchedTokens : ℚ) / (aTokens.length : ℚ) * (6/10))

/-- The scorer exactly as claim C2 words it: 1 on equality after
lowercasing, 9/10 when one string is a prefix of the other, 7/10 when one
is a case-insensitive substring of the other, and the token score
otherwise. -/
def c2ClaimedScorer (a b : String) : ℚ :=
  if lowerStr a = lowerStr b then 1
  else if jsStartsWith (lowerStr b) (lowerStr a) ∨ jsStartsWith (lowerStr a) (lowerStr b) then 9/10
  else if jsIncludes (lowerStr b) (lowerStr a) ∨ jsIncludes (lowerStr a) (lowerStr b) then 7/10
  else c2TokenScore a b

/-- The amended wording of claim C2: an empty input scores 0, and the
prefix and substring tiers are directional, testing only whether a is a
prefix, respectively a substring, of b. -/
def c2AmendedScorer (a b : String) : ℚ :=
  if a = "" ∨ b = "" then 0
  else if lowerStr a = lowerStr b then 1
  else if jsStartsWith (lowerStr b) (lowerStr a) then 9/10
  else if jsIncludes (lowerStr b) (lowerStr a) then 7/10
  else c2TokenScore a b

/-- C2 counterexample: on a = "ab", b = "a" the second string is a prefix
of the first, so the claimed symmetric tiering demands 9/10, but the code
scores the pair 3/10 through the word tier. -/
theorem c2_claimed_scorer_refuted :
    SearchController.calculateRelevanceScore "ab" "a" = 3/10 ∧
    c2ClaimedScorer "ab" "a" = 9/10 ∧
    SearchController.calculateRelevanceScore "ab" "a" ≠ c2ClaimedScorer "ab" "a" := by
  refine ⟨by decide, by decide, by decide⟩

/-- C2 (amended): the search-controller scorer agrees with the tier
description on every pair of strings once the prefix and substring tiers
are read directionally and the empty-input case is made explicit. -/
theorem searchScorer_matches_amended_tiers (a b : String) :
    SearchController.calculateRelevanceScore a b = c2AmendedScorer a b := by
  unfold SearchController.calculateRelevanceScore c2AmendedScorer c2TokenScore
  rcases Decidable.em (a = "" ∨ b = "") with h | h
  · simp [h]
  · push_neg at h
    simp only [h.1, h.2, or_self, if_false]
    rw [List.countP_eq_length_filter]
    rcases Decidable.em (lowerStr b = lowerStr a) with he | he
    · simp [he]
    · have he2 : ¬ (lowerStr a = lowerStr b) := fun hx => he hx.symm
      simp [he, he2]

/-- C8: the search-controller scorer stays within the floor of 3/10 and
the ceiling of 1 on non-empty inputs, and a value below the floor forces
one of the inputs to be empty. -/
theorem searchScorer_floor_and_ceiling (a b : String) :
    (a ≠ "" → b ≠ "" →
      3/10 ≤ SearchController.calculateRelevanceScore a b ∧
      SearchController.calculateRelevanceScore a b ≤ 1) ∧
    (SearchController.calculateRelevanceScore a b < 3/10 → a = "" ∨ b = "") := by
  have main : ∀ ha : a ≠ "", ∀ hb : b ≠ "",
      3/10 ≤ SearchController.calculateRelevanceScore a b ∧
      SearchController.calculateRelevanceScore a b ≤ 1 := by
    intro ha hb
    unfold SearchController.calculateRelevanceScore
    simp only [ha, hb, or_self, if_false]
    rcases Decidable.em (lowerStr b = lowerStr a) with he | he
    · simp only [he, if_true]
      norm_num
    · simp only [he, if_false]
      rcases Decidable.em (jsStartsWith (lowerStr b) (lowerStr a) = true) with hs | hs
      · simp only [hs, if_true]
        norm_num
      · simp only [hs, if_false]
        rcases Decidable.em (jsIncludes (lowerStr b) (lowerStr a) = true) with hi | hi
        · simp only [hi, if_true]
          norm_num
        · simp only [hi, if_false]
          constructor
          · exact le_max_left _ _
          · apply max_le
            · norm_num
            · set k := (List.filter
                (fun word => (jsSplitWs (lowerStr b)).any fun tw => jsIncludes tw word)
                (jsSplitWs (lowerStr a))).length with hk
              set n := (jsSplitWs (lowerStr a)).length with hn
              have hkn : k ≤ n := List.length_filter_le _ _
              have hfrac : (k : ℚ) / (n : ℚ) ≤ 1 := by
                rcases Nat.eq_zero_or_pos n with h0 | hpos
                · have : k = 0 := Nat.le_zero.mp (h0 ▸ hkn)
                  simp [this, h0]
                · rw [div_le_one (by exact_mod_cast hpos)]
                  exact_mod_cast hkn
              have hnn : (0:ℚ) ≤ (6:ℚ)/10 := by norm_num
              calc (k : ℚ) / (n : ℚ) * (6/10) ≤ 1 * (6/10) :=
                    mul_le_mul_of_nonneg_right hfrac hnn
                _ ≤ 1 := by norm_num
  refine ⟨main, ?_⟩
  intro hlt
  by_contra hc
  push_neg at hc
  have := (main hc.1 hc.2).1
  linarith

/-- C8 witness: the bounds instantiated at the non-empty pair cat, dog. -/
theorem searchScorer_floor_and_ceiling_witness :
    3/10 ≤ SearchController.calculateRelevanceScore "cat" "dog" ∧
    SearchController.calculateRelevanceScore "cat" "dog" ≤ 1 :=
  (searchScorer_floor_and_ceiling "cat" "dog").1 (by decide) (by decide)

/-- C9: the scorer is not symmetric; swapping vata with vata prakopa moves
the pair from the prefix tier to the word tier. -/
theorem searchScorer_asymmetric :
    ∃ x y, SearchController.calculateRelevanceScore x y ≠
      SearchController.calculateRelevanceScore y x :=
  ⟨"vata", "vata prakopa", by decide⟩

/-- A successful whole-word match is in particular a substring
occurrence. -/
theorem wholeWordTest_imp_jsIncludes (t q : String) :
    wholeWordTest t q = true → jsIncludes t q = true := by
  intro h
  unfold wholeWordTest at h
  unfold jsIncludes
  rw [List.any_eq_true] at h ⊢
  obtain ⟨i, hi, hcond⟩ := h
  refine ⟨i, hi, ?_⟩
  simp only [Bool.and_eq_true] at hcond
  exact hcond.1.1

/-- The condition under which the whole-word tier of the NAMASTE-service
scorer is reached and fires: both inputs non-empty, the lowercased
strings unequal, the text not starting with the query, and the
word-boundary regex matching. -/
def wholeWordTierFires (query text : String) : Bool :=
  !(query == "") && !(text == "") &&
  !(lowerStr text == lowerStr query) &&
  !(jsStartsWith (lowerStr text) (lowerStr query)) &&
  wholeWordTest (lowerStr text) (lowerStr query)

/-- C10 counterexample: the two scorer copies disagree on the pair vata,
acute vata, where the whole-word tier of the service copy fires. -/
theorem relevanceScorers_diverge :
    NamasteService.calculateRelevanceScore "vata" "acute vata" = 8/10 ∧
    SearchController.calculateRelevanceScore "vata" "acute vata" = 7/10 ∧
    NamasteService.calculateRelevanceScore "vata" "acute vata" ≠
      SearchController.calculateRelevanceScore "vata" "acute vata" := by
  refine ⟨by decide, by decide, by decide⟩

/-- C10 (amended): for queries whose lowercased form contains no regex
metacharacter, the two scorer copies agree except exactly when the
whole-word tier fires, where the service copy returns 8/10 and the
search-controller copy 7/10. -/
theorem relevanceScorers_agree_iff_tier (query text : String)
    (_hsafe : regexSafe (lowerStr query) = true) :
    (wholeWordTierFires query text = false →
      NamasteService.calculateRelevanceScore query text =
        SearchController.calculateRelevanceScore query text) ∧
    (wholeWordTierFires query text = true →
      NamasteService.calculateRelevanceScore query text = 8/10 ∧
      SearchController.calculateRelevanceScore query text = 7/10) := by
  constructor
  · intro hfire
    unfold NamasteService.calculateRelevanceScore SearchController.calculateRelevanceScore
    rcases Decidable.em (query = "" ∨ text = "") with h0 | h0
    · simp [h0]
    · push_neg at h0
      simp only [h0.1, h0.2, or_self, if_false]
      rcases Decidable.em (lowerStr text = lowerStr query) with he | he
      · simp [he]
      · simp only [he, if_false]
        rcases Decidable.em (jsStartsWith (lowerStr text) (lowerStr query) = true) with hs | hs
        · simp [hs]
        · simp only [hs, if_false]
          have hww : wholeWordTest (lowerStr text) (lowerStr query) = false := by
            by_contra hx
            rw [Bool.not_eq_false] at hx
            have hfireT : wholeWordTierFires query text = true := by
              unfold wholeWordTierFires
              simp [h0.1, h0.2, he, hs, hx]
            rw [hfireT] at hfire
            cases hfire
          simp [hww]
  · intro hfire
    unfold wholeWordTierFires at hfire
    simp only [Bool.and_eq_true, Bool.not_eq_true', beq_eq_false_iff_ne, ne_eq,
      beq_iff_eq] at hfire
    obtain ⟨⟨⟨⟨hq, ht⟩, he⟩, hs⟩, hww⟩ := hfire
    have hinc : jsIncludes (lowerStr text) (lowerStr query) = true :=
      wholeWordTest_imp_jsIncludes _ _ hww
    constructor
    · unfold NamasteService.calculateRelevanceScore
      simp [hq, ht, he, hs, hww]
    · unfold SearchController.calculateRelevanceScore
      simp [hq, ht, he, hs, hinc]

/-- C10 witness: both branches of the amended statement evaluated, the
agreeing branch at vata against vata fever and the firing branch at vata
against acute vata. -/
theorem relevanceScorers_agree_iff_tier_witness :
    NamasteService.calculateRelevanceScore "vata" "acute vata" = 8/10 ∧
    SearchController.calculateRelevanceScore "vata" "acute vata" = 7/10 :=
  (relevanceScorers_agree_iff_tier "vata" "acute vata" (by decide)).2 (by decide)

/-! ### Sortedness of the candidate ordering -/

/-- The case-insensitive lexicographic comparison is total. -/
theorem charListLe_total : ∀ a b : List Char, charListLe a b = true ∨ charListLe b a = true
  | [], _ => Or.inl rfl
  | _ :: _, [] => Or.inr rfl
  | a :: as, b :: bs => by
    rcases Decidable.em (a = b) with hab | hab
    · subst hab
      simpa [charListLe] using charListLe_total as bs
    · have hba : ¬ b = a := fun h => hab h.symm
      simp only [charListLe, if_neg hab, if_neg hba]
      rcases Nat.le_total a.toNat b.toNat with h | h
      · exact Or.inl (Nat.ble_eq.mpr h)
      · exact Or.inr (Nat.ble_eq.mpr h)

/-- Totality of the collation order on strings. -/
theorem strLeCI_total (a b : String) : strLeCI a b = true ∨ strLeCI b a = true :=
  charListLe_total _ _

/-- Inserting into a list that is sorted for a total Boolean comparison
keeps it sorted. -/
theorem chain'_insertSorted {α : Type} (le : α → α → Bool)
    (total : ∀ a b, le a b = true ∨ le b a = true) (x : α) :
    ∀ l : List α, List.Chain' (fun a b => le a b = true) l →
      List.Chain' (fun a b => le a b = true) (insertSorted le x l)
  | [], _ => List.chain'_singleton x
  | y :: ys, h => by
    unfold insertSorted
    rcases Decidable.em (le x y = true) with hxy | hxy
    · rw [if_pos hxy]
      exact List.chain'_cons.mpr ⟨hxy, h⟩
    · rw [if_neg hxy]
      have hyx : le y x = true := (total x y).resolve_left hxy
      cases ys with
      | nil =>
        exact List.chain'_cons.mpr ⟨hyx, List.chain'_singleton x⟩
      | cons z zs =>
        have hparts := List.chain'_cons.mp h
        have hrec := chain'_insertSorted le total x (z :: zs) hparts.2
        rcases Decidable.em (le x z = true) with hxz | hxz
        · rw [show insertSorted le x (z :: zs) = x :: z :: zs from by
            simp [insertSorted, hxz]]
          rw [show insertSorted le x (z :: zs) = x :: z :: zs from by
            simp [insertSorted, hxz]] at hrec
          exact List.chain'_cons.mpr ⟨hyx, hrec⟩
        · rw [show insertSorted le x (z :: zs) = z :: insertSorted le x zs from by
            simp [insertSorted, hxz]]
          rw [show insertSorted le x (z :: zs) = z :: insertSorted le x zs from by
            simp [insertSorted, hxz]] at hrec
          exact List.chain'_cons.mpr ⟨hparts.1, hrec⟩

/-- Insertion sort produces a list sorted for any total Boolean
comparison. -/
theorem chain'_sortByBool {α : Type} (le : α → α → Bool)
    (total : ∀ a b, le a b = true ∨ le b a = true) :
    ∀ l : List α, List.Chain' (fun a b => le a b = true) (sortByBool le l)
  | [] => List.chain'_nil
  | x :: xs => chain'_insertSorted le total x _ (chain'_sortByBool le total xs)

/-! ### Claim C1: suggestion limit and ordering -/

/-- Store for the suggestion counterexample: one active source entry and
two active tm2 candidates whose title order disagrees with their score
order. -/
def dbC1 : Db :=
  { namaste := [⟨"NAM001", "Vata Prakopa", "ayurveda", "active"⟩]
    icd11 := [⟨"I1", "C1", "Anxiety vata condition", "tm2", "active"⟩,
              ⟨"I2", "C2", "Vata Prakopa", "tm2", "active"⟩]
    mappings := []
    nextId := 1 }

/-- The suggestion list the service returns on dbC1: title-ascending, so
the perfect-score candidate comes second. -/
def suggestionsC1 : List Suggestion :=
  [⟨"I1", "Anxiety vata condition", 3/10, "broader"⟩,
   ⟨"I2", "Vata Prakopa", 1, "equivalent"⟩]

/-- C1 counterexample: findSuggestedMappings returns the dbC1 suggestions
in title order, which is not sorted by confidence score descending: the
first entry scores 3/10 and the second 1. -/
theorem findSuggestedMappings_not_sorted_by_confidence :
    MappingService.findSuggestedMappings dbC1 "NAM001" 5 = Except.ok suggestionsC1 ∧
    ¬ suggestionsC1.Chain' fun a b => b.confidence_score ≤ a.confidence_score := by
  constructor
  · decide
  · intro hchain
    unfold suggestionsC1 at hchain
    rw [List.chain'_cons] at hchain
    have h12 := hchain.1
    norm_num at h12

/-- C1 (amended): a successful findSuggestedMappings call returns at most
limit suggestions, and the returned list is sorted by target title in
case-insensitive ascending order, not by confidence score. -/
theorem findSuggestedMappings_limit_and_title_order (db : Db) (code : String) (limit : Nat)
    (l : List Suggestion) (h : MappingService.findSuggestedMappings db code limit = Except.ok l) :
    l.length ≤ limit ∧ l.Chain' fun a b => strLeCI a.icd11_title b.icd11_title = true := by
  unfold MappingService.findSuggestedMappings at h
  cases hfind : findNamasteActive db code with
  | none => rw [hfind] at h; cases h
  | some ent =>
    rw [hfind] at h
    have hl := (Except.ok.inj h).symm
    subst hl
    constructor
    · rw [List.length_map, List.length_take]
      exact Nat.min_le_left _ _
    · rw [List.chain'_map]
      exact (chain'_sortByBool (fun a b : ICD11Entry => strLeCI a.title b.title)
        (fun a b => strLeCI_total a.title b.title) _).take limit

/-- C1 witness: the amended bound and ordering instantiated on dbC1. -/
theorem findSuggestedMappings_limit_and_title_order_witness :
    suggestionsC1.length ≤ 5 ∧
    suggestionsC1.Chain' fun a b => strLeCI a.icd11_title b.icd11_title = true :=
  findSuggestedMappings_limit_and_title_order dbC1 "NAM001" 5 suggestionsC1 (by decide)

/-! ### Claim C5: translate outcome semantics -/

/-- C5: in the namaste branch translateCode fails with notFound exactly
when the code has no active source row, and returns the empty list when
the row exists but has no active mappings; symmetrically in the icd
branch; and a system matching neither family is rejected as
unsupported. -/
theorem translateCode_error_semantics (db : Db) (system code : String) :
    (jsIncludes system "namaste" = true →
      (FhirService.translateCode db system code = Except.error TranslateErr.notFound ↔
        findNamasteActive db code = none) ∧
      ((db.mappings.filter fun m => m.namaste_code == code && m.is_active) = [] →
        findNamasteActive db code ≠ none →
        FhirService.translateCode db system code = Except.ok [])) ∧
    (jsIncludes system "namaste" = false →
      jsIncludes system "icd" = true →
      (FhirService.translateCode db system code = Except.error TranslateErr.notFound ↔
        (db.icd11.find? fun e => e.icd_id == code && e.status == "active") = none) ∧
      ((db.mappings.filter fun m => m.icd11_code == code && m.is_active) = [] →
        (db.icd11.find? fun e => e.icd_id == code && e.status == "active") ≠ none →
        FhirService.translateCode db system code = Except.ok [])) ∧
    (jsIncludes system "namaste" = false →
      jsIncludes system "icd" = false →
      FhirService.translateCode db system code = Except.error TranslateErr.unsupported) := by
  refine ⟨?_, ?_, ?_⟩
  · intro hsys
    unfold FhirService.translateCode
    rw [if_pos hsys]
    constructor
    · cases hfind : findNamasteActive db code with
      | none =>
        unfold findNamasteActive at hfind
        rw [hfind]
        simp
      | some ent =>
        unfold findNamasteActive at hfind
        rw [hfind]
        simp
    · intro hmaps hfound
      cases hfind : findNamasteActive db code with
      | none => exact absurd hfind hfound
      | some ent =>
        unfold findNamasteActive at hfind
        rw [hfind, hmaps]
        simp
  · intro hns hsys
    unfold FhirService.translateCode
    rw [if_neg (by simp [hns]), if_pos hsys]
    constructor
    · cases hfind : db.icd11.find? fun e => e.icd_id == code && e.status == "active" with
      | none => simp
      | some ent => simp
    · intro hmaps hfound
      cases hfind : db.icd11.find? fun e => e.icd_id == code && e.status == "active" with
      | none => exact absurd hfind hfound
      | some ent => simp [hmaps]
  · intro hns hicd
    unfold FhirService.translateCode
    rw [if_neg (by simp [hns]), if_neg (by simp [hicd])]

/-- Store for the C5 witness: NAM001 exists and is active with zero
mappings. -/
def dbC5 : Db :=
  { namaste := [⟨"NAM001", "Vata Prakopa", "ayurveda", "active"⟩]
    icd11 := []
    mappings := []
    nextId := 1 }

/-- C5 witness: translating an existing unmapped code in the
traditional-medicine system yields the empty list rather than an error. -/
theorem translateCode_error_semantics_witness :
    FhirService.translateCode dbC5 "http://terminology.hl7.org/CodeSystem/namaste-all" "NAM001" =
      Except.ok [] :=
  ((translateCode_error_semantics dbC5
    "http://terminology.hl7.org/CodeSystem/namaste-all" "NAM001").1 (by decide)).2
    (by decide) (by decide)

/-! ### Behavior of the two creation paths on duplicates and confidence -/

/-- The mapping row persisted by a successful creator call, with the
confidence defaulting rule applied. -/
def mkMapping (db : Db) (namasteCode : String) (n : NamasteEntry) (t : ICD11Entry)
    (mappingType : String) (conf : Option ℚ) (notes : Option String) : Mapping :=
  { id := db.nextId
    namaste_code := namasteCode
    icd11_code := t.icd_id
    mapping_type := mappingType
    confidence_score :=
      match conf with
      | some c => if c = 0 then calculateMappingConfidence n.display_name t.title else c
      | none => calculateMappingConfidence n.display_name t.title
    notes := notes
    verified_by := none
    is_active := true }

/-- A creator call whose lookups succeed and whose pair is new persists
exactly the mkMapping row and bumps the created and processed counters. -/
theorem createMapping_creates (db : Db) (stats : Stats) (namasteCode icd11Code : String)
    (mappingType : String) (conf : Option ℚ) (notes : Option String)
    (n : NamasteEntry) (hsrc : findNamasteActive db namasteCode = some n)
    (t : ICD11Entry) (htgt : findIcd11Active db icd11Code = some t)
    (hnodup : findActiveMappingPair db namasteCode t.icd_id = none) :
    MappingCreator.createMapping db stats namasteCode icd11Code mappingType conf notes =
      (Except.ok (mkMapping db namasteCode n t mappingType conf notes),
       { db with mappings := db.mappings ++ [mkMapping db namasteCode n t mappingType conf notes],
                 nextId := db.nextId + 1 },
       { stats with created := stats.created + 1, processed := stats.processed + 1 }) := by
  unfold MappingCreator.createMapping
  rw [hsrc, htgt]
  simp only [hnodup]
  rfl

/-- A creator call that finds an existing active mapping of the pair
returns it unchanged and bumps the skipped and processed counters. -/
theorem createMapping_skips (db : Db) (stats : Stats) (namasteCode icd11Code : String)
    (mappingType : String) (conf : Option ℚ) (notes : Option String)
    (n : NamasteEntry) (hsrc : findNamasteActive db namasteCode = some n)
    (t : ICD11Entry) (htgt : findIcd11Active db icd11Code = some t)
    (m : Mapping) (hdup : findActiveMappingPair db namasteCode t.icd_id = some m) :
    MappingCreator.createMapping db stats namasteCode icd11Code mappingType conf notes =
      (Except.ok m, db,
       { stats with skipped := stats.skipped + 1, processed := stats.processed + 1 }) := by
  unfold MappingCreator.createMapping
  rw [hsrc, htgt]
  simp only [hdup]

/-! ### Claim C3: duplicate handling in the batch and interactive paths -/

/-- C3: starting from a store where the pair has no active mapping, a
first creator call persists a mapping; the second identical call returns
that same mapping, leaves the store unchanged, increments skipped, and
the pair still has exactly one active mapping; on the same store the
interactive controller call answers conflict. -/
theorem createMapping_idempotent_batch_conflict_single (db : Db) (stats : Stats)
    (namasteCode icd11Code mappingType : String) (conf : Option ℚ) (notes : Option String)
    (userId : Nat)
    (n : NamasteEntry) (hsrc : findNamasteActive db namasteCode = some n)
    (t : ICD11Entry) (htgt : findIcd11Active db icd11Code = some t)
    (hnodup : findActiveMappingPair db namasteCode t.icd_id = none)
    (hne : namasteCode ≠ "" ∧ icd11Code ≠ "") :
    ∃ m : Mapping,
      (MappingCreator.createMapping db stats namasteCode icd11Code mappingType conf notes).1 =
        Except.ok m ∧
      (let db1 := (MappingCreator.createMapping db stats namasteCode icd11Code
          mappingType conf notes).2.1
       let s1 := (MappingCreator.createMapping db stats namasteCode icd11Code
          mappingType conf notes).2.2
       (MappingCreator.createMapping db1 s1 namasteCode icd11Code mappingType conf notes).1 =
          Except.ok m ∧
       (MappingCreator.createMapping db1 s1 namasteCode icd11Code mappingType conf notes).2.1 =
          db1 ∧
       (MappingCreator.createMapping db1 s1 namasteCode icd11Code
          mappingType conf notes).2.2.skipped = s1.skipped + 1 ∧
       (db1.mappings.filter fun x =>
          x.namaste_code == namasteCode && x.icd11_code == t.icd_id && x.is_active).length = 1 ∧
       (MappingController.createMapping db1 namasteCode icd11Code none none none userId).1 =
          CtrlOutcome.conflict) := by
  have h1 := createMapping_creates db stats namasteCode icd11Code mappingType conf notes
    n hsrc t htgt hnodup
  set mNew := mkMapping db namasteCode n t mappingType conf notes with hm
  refine ⟨mNew, by rw [h1], ?_⟩
  rw [h1]
  set db1 : Db :=
    { db with mappings := db.mappings ++ [mNew], nextId := db.nextId + 1 } with hdb1
  have hsrc1 : findNamasteActive db1 namasteCode = some n := hsrc
  have htgt1 : findIcd11Active db1 icd11Code = some t := htgt
  have hpair1 : findActiveMappingPair db1 namasteCode t.icd_id = some mNew := by
    unfold findActiveMappingPair at hnodup ⊢
    show (db.mappings ++ [mNew]).find? _ = some mNew
    rw [List.find?_append, hnodup]
    simp [mNew, mkMapping]
  have h2 := createMapping_skips db1
    { stats with created := stats.created + 1, processed := stats.processed + 1 }
    namasteCode icd11Code mappingType conf notes n hsrc1 t htgt1 mNew hpair1
  refine ⟨by rw [h2], by rw [h2], by rw [h2], ?_, ?_⟩
  · show ((db.mappings ++ [mNew]).filter _).length = 1
    rw [List.filter_append]
    have hnil : (db.mappings.filter fun x =>
        x.namaste_code == namasteCode && x.icd11_code == t.icd_id && x.is_active) = [] := by
      rw [List.filter_eq_nil_iff]
      intro x hx hpx
      unfold findActiveMappingPair at hnodup
      rw [List.find?_eq_none] at hnodup
      exact absurd hpx (by simpa using hnodup x hx)
    rw [hnil]
    simp [mNew, mkMapping]
  · unfold MappingController.createMapping
    rw [if_neg (by simp [hne.1, hne.2])]
    rw [hsrc1, htgt1]
    simp only [hpair1]

/-- Store for the C3 witness: one active source, one active target, no
mappings yet. -/
def dbC3 : Db :=
  { namaste := [⟨"NAM001", "Vata Prakopa", "ayurveda", "active"⟩]
    icd11 := [⟨"1435254666", "SK25", "Vata Prakopa", "tm2", "active"⟩]
    mappings := []
    nextId := 1 }

/-- C3 witness: the duplicate-handling theorem instantiated on dbC3. -/
theorem createMapping_idempotent_batch_conflict_single_witness :
    ∃ m : Mapping,
      (MappingCreator.createMapping dbC3 Stats.zero "NAM001" "1435254666" "equivalent"
        (some (95/100)) none).1 = Except.ok m ∧
      (let db1 := (MappingCreator.createMapping dbC3 Stats.zero "NAM001" "1435254666"
          "equivalent" (some (95/100)) none).2.1
       let s1 := (MappingCreator.createMapping dbC3 Stats.zero "NAM001" "1435254666"
          "equivalent" (some (95/100)) none).2.2
       (MappingCreator.createMapping db1 s1 "NAM001" "1435254666" "equivalent"
          (some (95/100)) none).1 = Except.ok m ∧
       (MappingCreator.createMapping db1 s1 "NAM001" "1435254666" "equivalent"
          (some (95/100)) none).2.1 = db1 ∧
       (MappingCreator.createMapping db1 s1 "NAM001" "1435254666" "equivalent"
          (some (95/100)) none).2.2.skipped = s1.skipped + 1 ∧
       (db1.mappings.filter fun x =>
          x.namaste_code == "NAM001" && x.icd11_code == "1435254666" && x.is_active).length = 1 ∧
       (MappingController.createMapping db1 "NAM001" "1435254666" none none none 7).1 =
          CtrlOutcome.conflict) :=
  createMapping_idempotent_batch_conflict_single dbC3 Stats.zero "NAM001" "1435254666"
    "equivalent" (some (95/100)) none 7
    ⟨"NAM001", "Vata Prakopa", "ayurveda", "active"⟩ (by decide)
    ⟨"1435254666", "SK25", "Vata Prakopa", "tm2", "active"⟩ (by decide)
    (by decide) ⟨by decide, by decide⟩

/-! ### Claim C6: explicit confidence versus computed fallback -/

/-- Store for the C6 counterexample: source Vata and target Fever score
3/10 through the word tier. -/
def dbC6 : Db :=
  { namaste := [⟨"NAM1", "Vata", "ayurveda", "active"⟩]
    icd11 := [⟨"I1", "C1", "Fever", "tm2", "active"⟩]
    mappings := []
    nextId := 1 }

/-- C6 counterexample: a caller-supplied confidence of 0 is falsy in JS,
so the persisted mapping carries the computed 3/10 instead of the
supplied 0. -/
theorem createMapping_zero_confidence_ignored :
    ∃ m : Mapping,
      (MappingCreator.createMapping dbC6 Stats.zero "NAM1" "I1" "equivalent"
        (some 0) none).1 = Except.ok m ∧
      m.confidence_score = 3/10 ∧ m.confidence_score ≠ 0 := by
  refine ⟨mkMapping dbC6 "NAM1" ⟨"NAM1", "Vata", "ayurveda", "active"⟩
    ⟨"I1", "C1", "Fever", "tm2", "active"⟩ "equivalent" (some 0) none, ?_, by decide, by decide⟩
  rw [createMapping_creates dbC6 Stats.zero "NAM1" "I1" "equivalent" (some 0) none
    ⟨"NAM1", "Vata", "ayurveda", "active"⟩ (by decide)
    ⟨"I1", "C1", "Fever", "tm2", "active"⟩ (by decide) (by decide)]

/-- C6 (amended): a supplied nonzero confidence is persisted unchanged by
both the batch creator and the interactive controller, and the computed
score is used exactly when the supplied value is absent or 0. -/
theorem createMapping_confidence_default_rule (db : Db) (stats : Stats)
    (namasteCode icd11Code mappingType : String) (notes : Option String) (userId : Nat)
    (c : ℚ) (hc : c ≠ 0)
    (n : NamasteEntry) (hsrc : findNamasteActive db namasteCode = some n)
    (t : ICD11Entry) (htgt : findIcd11Active db icd11Code = some t)
    (hnodup : findActiveMappingPair db namasteCode t.icd_id = none)
    (hne : namasteCode ≠ "" ∧ icd11Code ≠ "") :
    (∀ m, (MappingCreator.createMapping db stats namasteCode icd11Code mappingType
        (some c) notes).1 = Except.ok m → m.confidence_score = c) ∧
    (∀ m, (MappingCreator.createMapping db stats namasteCode icd11Code mappingType
        none notes).1 = Except.ok m →
        m.confidence_score = calculateMappingConfidence n.display_name t.title) ∧
    (∀ m, (MappingCreator.createMapping db stats namasteCode icd11Code mappingType
        (some 0) notes).1 = Except.ok m →
        m.confidence_score = calculateMappingConfidence n.display_name t.title) ∧
    (∀ m, (MappingController.createMapping db namasteCode icd11Code (some mappingType)
        (some c) notes userId).1 = CtrlOutcome.created m → m.confidence_score = c) := by
  have hctrl : (MappingController.createMapping db namasteCode icd11Code (some mappingType)
      (some c) notes userId).1 = CtrlOutcome.created
        { id := db.nextId
          namaste_code := namasteCode
          icd11_code := t.icd_id
          mapping_type := if mappingType = "" then "equivalent" else mappingType
          confidence_score := if c = 0 then
            calculateMappingConfidence n.display_name t.title else c
          notes := notes
          verified_by := some userId
          is_active := true } := by
    unfold MappingController.createMapping
    rw [if_neg (by simp [hne.1, hne.2])]
    rw [hsrc, htgt]
    simp only [hnodup]
  refine ⟨?_, ?_, ?_, ?_⟩
  · intro m hm
    rw [createMapping_creates db stats namasteCode icd11Code mappingType (some c) notes
      n hsrc t htgt hnodup] at hm
    have := Except.ok.inj hm
    rw [← this]
    simp [mkMapping, hc]
  · intro m hm
    rw [createMapping_creates db stats namasteCode icd11Code mappingType none notes
      n hsrc t htgt hnodup] at hm
    have := Except.ok.inj hm
    rw [← this]
    simp [mkMapping]
  · intro m hm
    rw [createMapping_creates db stats namasteCode icd11Code mappingType (some 0) notes
      n hsrc t htgt hnodup] at hm
    have := Except.ok.inj hm
    rw [← this]
    simp [mkMapping]
  · intro m hm
    rw [hctrl] at hm
    have := CtrlOutcome.created.inj hm
    rw [← this]
    simp [hc]

/-- The mapping persisted during the C6 witness run. -/
def mC6w : Mapping :=
  ⟨1, "NAM1", "I1", "equivalent", 42/100, none, none, true⟩

/-- C6 witness: on dbC6 the creator persists the explicit confidence
42/100 unchanged. -/
theorem createMapping_confidence_default_rule_witness :
    mC6w.confidence_score = 42/100 :=
  (createMapping_confidence_default_rule dbC6 Stats.zero "NAM1" "I1" "equivalent" none 7
    (42/100) (by norm_num)
    ⟨"NAM1", "Vata", "ayurveda", "active"⟩ (by decide)
    ⟨"I1", "C1", "Fever", "tm2", "active"⟩ (by decide) (by decide)
    ⟨by decide, by decide⟩).1 mC6w (by decide)

/-! ### Claim C7: validation reports without mutation -/

/-- A mapping whose source reference is missing or inactive. -/
def badSourceRef (db : Db) (m : Mapping) : Bool :=
  match namasteDetails db m with
  | none => true
  | some n => n.status != "active"

/-- A mapping whose target reference is missing or inactive. -/
def badTargetRef (db : Db) (m : Mapping) : Bool :=
  match icd11Details db m with
  | none => true
  | some i => i.status != "active"

/-- The validation step adds one to invalid exactly on a bad reference. -/
theorem validateStep_invalid (db : Db) (acc : ValidationReport) (m : Mapping) :
    (validateStep db acc m).invalid =
      acc.invalid + (if (badSourceRef db m || badTargetRef db m) = true then 1 else 0) := by
  unfold validateStep badSourceRef badTargetRef
  cases hn : namasteDetails db m with
  | none => simp
  | some n =>
    by_cases hns : n.status != "active"
    · simp [hns]
    · simp only [hns, Bool.false_or, if_false]
      cases hi : icd11Details db m with
      | none => simp
      | some i =>
        by_cases his : i.status != "active"
        · simp [hns, his]
        · by_cases hdrift :
            3/10 < |calculateMappingConfidence n.display_name i.title - m.confidence_score|
          · simp [hns, his, hdrift]
          · simp [hns, his, hdrift]

/-- The validation step never removes issues. -/
theorem validateStep_issues_mono (db : Db) (acc : ValidationReport) (m : Mapping) :
    ∀ i ∈ acc.issues, i ∈ (validateStep db acc m).issues := by
  intro i hi
  unfold validateStep
  cases hn : namasteDetails db m with
  | none => simpa using Or.inl hi
  | some n =>
    by_cases hns : n.status != "active"
    · simp only [hns, if_true]
      simpa using Or.inl hi
    · simp only [hns, if_false]
      cases hic : icd11Details db m with
      | none => simpa using Or.inl hi
      | some t =>
        by_cases his : t.status != "active"
        · simp only [his, if_true]
          simpa using Or.inl hi
        · simp only [his, if_false]
          by_cases hdrift :
            3/10 < |calculateMappingConfidence n.display_name t.title - m.confidence_score|
          · simp only [hdrift, if_true]
            simpa using Or.inl hi
          · simpa [hdrift] using hi

/-- The validation step records an issue carrying the id of a mapping
whose reference is bad. -/
theorem validateStep_issue_of_bad (db : Db) (acc : ValidationReport) (m : Mapping)
    (hbad : (badSourceRef db m || badTargetRef db m) = true) :
    ∃ i ∈ (validateStep db acc m).issues, i.mapping_id = m.id := by
  unfold validateStep
  unfold badSourceRef badTargetRef at hbad
  cases hn : namasteDetails db m with
  | none =>
    refine ⟨⟨m.id, "NAMASTE code not found or inactive"⟩, ?_, rfl⟩
    simp
  | some n =>
    rw [hn] at hbad
    by_cases hns : n.status != "active"
    · refine ⟨⟨m.id, "NAMASTE code not found or inactive"⟩, ?_, rfl⟩
      simp [hns]
    · simp only [hns, Bool.false_or] at hbad
      simp only [hns, if_false]
      cases hic : icd11Details db m with
      | none =>
        refine ⟨⟨m.id, "ICD-11 code not found or inactive"⟩, ?_, rfl⟩
        simp
      | some t =>
        rw [hic] at hbad
        have hts : ¬ t.status = "active" := by simpa using hbad
        refine ⟨⟨m.id, "ICD-11 code not found or inactive"⟩, ?_, rfl⟩
        simp [hts]

/-- Folding the validation step counts the bad-reference mappings and
keeps an issue for each of them. -/
theorem validateFold_spec (db : Db) :
    ∀ (l : List Mapping) (acc : ValidationReport),
      (l.foldl (validateStep db) acc).invalid =
        acc.invalid + (l.filter fun m => badSourceRef db m || badTargetRef db m).length ∧
      (∀ i ∈ acc.issues, i ∈ (l.foldl (validateStep db) acc).issues) ∧
      (∀ m ∈ l, (badSourceRef db m || badTargetRef db m) = true →
        ∃ i ∈ (l.foldl (validateStep db) acc).issues, i.mapping_id = m.id)
  | [], acc => by simp
  | m :: l, acc => by
    have ih := validateFold_spec db l (validateStep db acc m)
    refine ⟨?_, ?_, ?_⟩
    · rw [List.foldl_cons, ih.1, validateStep_invalid]
      by_cases hbad : (badSourceRef db m || badTargetRef db m) = true
      · simp [hbad, Nat.add_assoc, Nat.add_comm]
      · simp only [Bool.not_eq_true] at hbad
        simp [hbad]
    · intro i hi
      rw [List.foldl_cons]
      exact ih.2.1 i (validateStep_issues_mono db acc m i hi)
    · intro x hx hbad
      rw [List.foldl_cons]
      rcases List.mem_cons.mp hx with hx | hx
      · subst hx
        obtain ⟨i, hi, hid⟩ := validateStep_issue_of_bad db acc x hbad
        exact ⟨i, ih.2.1 i hi, hid⟩
      · exact ih.2.2 x hx hbad

/-- C7: validateMappings leaves the store untouched, its invalid count is
exactly the number of active mappings with a missing or inactive source
or target reference, and every such mapping has a recorded issue carrying
its id. -/
theorem validateMappings_reports_without_mutation (db : Db) :
    (MappingCreator.validateMappings db).2 = db ∧
    (MappingCreator.validateMappings db).1.invalid =
      ((db.mappings.filter Mapping.is_active).filter fun m =>
        badSourceRef db m || badTargetRef db m).length ∧
    ∀ m ∈ db.mappings, m.is_active = true →
      (badSourceRef db m || badTargetRef db m) = true →
      ∃ i ∈ (MappingCreator.validateMappings db).1.issues, i.mapping_id = m.id := by
  have h := validateFold_spec db (db.mappings.filter Mapping.is_active) ⟨0, 0, []⟩
  refine ⟨rfl, ?_, ?_⟩
  · unfold MappingCreator.validateMappings
    rw [h.1]
    simp
  · intro m hm hact hbad
    unfold MappingCreator.validateMappings
    exact h.2.2 m (List.mem_filter.mpr ⟨hm, hact⟩) hbad

/-- Store for the C7 witness: an active mapping whose target entry has
been deactivated. -/
def dbC7 : Db :=
  { namaste := [⟨"NAM1", "Vata", "ayurveda", "active"⟩]
    icd11 := [⟨"I1", "C1", "Vata", "tm2", "inactive"⟩]
    mappings := [⟨5, "NAM1", "I1", "equivalent", 1, none, none, true⟩]
    nextId := 6 }

/-- C7 witness: on dbC7 the deactivated target makes validateMappings
report mapping 5 invalid while the store, and so its isActive flag, is
unchanged. -/
theorem validateMappings_reports_without_mutation_witness :
    (MappingCreator.validateMappings dbC7).2 = dbC7 ∧
    ∃ i ∈ (MappingCreator.validateMappings dbC7).1.issues, i.mapping_id = 5 :=
  ⟨(validateMappings_reports_without_mutation dbC7).1,
   (validateMappings_reports_without_mutation dbC7).2.2
     ⟨5, "NAM1", "I1", "equivalent", 1, none, none, true⟩ (by decide) (by decide) (by decide)⟩

/-! ### Claim C4: bulk automatic mapping -/

/-- A running-maximum fold never drops below its start. -/
theorem foldl_max_init_le {α : Type} (f : α → ℚ) :
    ∀ (l : List α) (init : ℚ), init ≤ l.foldl (fun b x => max b (f x)) init
  | [], _ => le_refl _
  | x :: l, init => le_trans (le_max_left _ _) (foldl_max_init_le f l (max init (f x)))

/-- A running-maximum fold stays below any bound on the start and the
values. -/
theorem foldl_max_le {α : Type} (f : α → ℚ) (c : ℚ) :
    ∀ (l : List α) (init : ℚ), init ≤ c → (∀ x ∈ l, f x ≤ c) →
      l.foldl (fun b x => max b (f x)) init ≤ c
  | [], _, hi, _ => hi
  | x :: l, init, hi, hall =>
    foldl_max_le f c l (max init (f x))
      (max_le hi (hall x (List.mem_cons_self x l)))
      fun y hy => hall y (List.mem_cons_of_mem x hy)

/-- Appending one candidate takes the maximum with its score. -/
theorem bestCandidateScore_append (l : List ICD11Entry) (x : ICD11Entry) (display : String) :
    bestCandidateScore (l ++ [x]) display =
      max (bestCandidateScore l display) (calculateMappingConfidence display x.title) := by
  unfold bestCandidateScore
  rw [List.foldl_append]
  rfl

/-- The best-candidate step written as a conditional. -/
theorem bestStep_eq (display : String) (threshold : ℚ) (p : Option ICD11Entry × ℚ)
    (x : ICD11Entry) :
    bestStep display threshold p x =
      if p.2 < calculateMappingConfidence display x.title ∧
          threshold ≤ calculateMappingConfidence display x.title
      then (some x, calculateMappingConfidence display x.title) else p := rfl

/-- The thresholded best-candidate scan: finding no candidate means no
score clears both zero and the threshold, and the found candidate is a
member whose recorded score is exactly the unthresholded best, which then
clears the threshold and is positive. -/
theorem bestFold_spec (display : String) (threshold : ℚ) (icds : List ICD11Entry) :
    ((icds.foldl (bestStep display threshold) (none, 0)).1 = none →
      (icds.foldl (bestStep display threshold) (none, 0)).2 = 0 ∧
      ∀ icd ∈ icds, ¬ (0 < calculateMappingConfidence display icd.title ∧
        threshold ≤ calculateMappingConfidence display icd.title)) ∧
    (∀ bm, (icds.foldl (bestStep display threshold) (none, 0)).1 = some bm →
      bm ∈ icds ∧
      (icds.foldl (bestStep display threshold) (none, 0)).2 = bestCandidateScore icds display ∧
      threshold ≤ bestCandidateScore icds display ∧
      0 < bestCandidateScore icds display) := by
  induction icds using List.reverseRecOn with
  | nil =>
    constructor
    · intro _
      exact ⟨rfl, by simp⟩
    · intro bm h
      exact absurd h (by simp)
  | append_singleton l x ih =>
    have hfold : ((l ++ [x]).foldl (bestStep display threshold) (none, 0)) =
        bestStep display threshold (l.foldl (bestStep display threshold) (none, 0)) x := by
      rw [List.foldl_append]
      rfl
    rw [hfold, bestStep_eq]
    set p := l.foldl (bestStep display threshold) (none, 0) with hp
    set s := calculateMappingConfidence display x.title with hs
    have hp2nn : 0 ≤ p.2 := by
      cases hpm : p.1 with
      | none => exact le_of_eq (ih.1 hpm).1.symm
      | some bm' =>
        have := (ih.2 bm' hpm)
        rw [this.2.1]
        exact le_of_lt this.2.2.2
    by_cases htrig : p.2 < s ∧ threshold ≤ s
    · rw [if_pos htrig]
      constructor
      · intro h
        exact absurd h (by simp)
      · intro bm hbm
        have hbmx : bm = x := by simpa using hbm.symm
        subst hbmx
        have hxle : bestCandidateScore l display ≤ s := by
          cases hpm : p.1 with
          | none =>
            obtain ⟨hp2, hfail⟩ := ih.1 hpm
            apply foldl_max_le
            · linarith [htrig.1, hp2]
            · intro y hy
              by_contra hgt
              push_neg at hgt
              apply hfail y hy
              constructor
              · linarith [htrig.1, hp2]
              · linarith [htrig.2]
          | some bm' =>
            have := (ih.2 bm' hpm).2.1
            calc bestCandidateScore l display = p.2 := this.symm
              _ ≤ s := le_of_lt htrig.1
        rw [bestCandidateScore_append, ← hs, max_eq_right hxle]
        exact ⟨List.mem_append.mpr (Or.inr (List.mem_cons_self _ _)), rfl, htrig.2,
          lt_of_le_of_lt hp2nn htrig.1⟩
    · rw [if_neg htrig]
      constructor
      · intro hnone
        obtain ⟨hp2, hfail⟩ := ih.1 hnone
        refine ⟨hp2, ?_⟩
        intro icd hicd
        rcases List.mem_append.mp hicd with h | h
        · exact hfail icd h
        · have hix : icd = x := by simpa using h
          subst hix
          rw [hp2] at htrig
          exact fun hq => htrig ⟨hq.1, hq.2⟩
      · intro bm hsome
        obtain ⟨hbmem, hp2, hthr, hposl⟩ := ih.2 bm hsome
        have hsle : s ≤ p.2 := by
          by_contra hgt
          push_neg at hgt
          apply htrig
          refine ⟨hgt, ?_⟩
          have hth2 : threshold ≤ p.2 := by rw [hp2]; exact hthr
          linarith
        have hmax : max (bestCandidateScore l display) s = bestCandidateScore l display := by
          apply max_eq_left
          rw [← hp2]
          exact hsle
        rw [bestCandidateScore_append, ← hs, hmax]
        exact ⟨List.mem_append.mpr (Or.inl hbmem), hp2, hthr, hposl⟩

/-- The active-source lookup succeeds whenever a matching active row
exists. -/
theorem findNamasteActive_exists (db : Db) (c : String)
    (h : ∃ x ∈ db.namaste, x.code = c ∧ x.status = "active") :
    ∃ n', findNamasteActive db c = some n' := by
  obtain ⟨x, hx, hc, hs⟩ := h
  unfold findNamasteActive
  cases hf : db.namaste.find? fun n => n.code == c && n.status == "active" with
  | some n' => exact ⟨n', rfl⟩
  | none =>
    rw [List.find?_eq_none] at hf
    exact absurd (by simp [hc, hs] : (fun n => n.code == c && n.status == "active") x = true)
      (hf x hx)

/-- The target lookup succeeds whenever a matching active row exists
under its primary identifier. -/
theorem findIcd11Active_exists (db : Db) (c : String)
    (h : ∃ x ∈ db.icd11, x.icd_id = c ∧ x.status = "active") :
    ∃ t, findIcd11Active db c = some t := by
  obtain ⟨x, hx, hc, hs⟩ := h
  unfold findIcd11Active
  cases hf : db.icd11.find? fun e => (e.icd_id == c || e.code == c) && e.status == "active" with
  | some t => exact ⟨t, rfl⟩
  | none =>
    rw [List.find?_eq_none] at hf
    exact absurd
      (by simp [hc, hs] : (fun e => (e.icd_id == c || e.code == c) && e.status == "active") x
        = true)
      (hf x hx)

/-- One automatic-mapping step keeps the two code tables and the error
count, and appends at most one mapping, which then carries the source
code, the equivalent type, the best candidate score as confidence, the
generated note, and a best score clearing the threshold. -/
theorem autoStep_spec (threshold : ℚ) (icds : List ICD11Entry) (acc : Db × Stats)
    (n : NamasteEntry)
    (hn : ∃ x ∈ acc.1.namaste, x.code = n.code ∧ x.status = "active")
    (hicds : ∀ x ∈ icds, x ∈ acc.1.icd11 ∧ x.status = "active") :
    (autoStep threshold icds acc n).1.namaste = acc.1.namaste ∧
    (autoStep threshold icds acc n).1.icd11 = acc.1.icd11 ∧
    (autoStep threshold icds acc n).2.errors = acc.2.errors ∧
    ((autoStep threshold icds acc n).1.mappings = acc.1.mappings ∨
      ∃ mNew : Mapping,
        (autoStep threshold icds acc n).1.mappings = acc.1.mappings ++ [mNew] ∧
        mNew.namaste_code = n.code ∧
        mNew.mapping_type = "equivalent" ∧
        mNew.confidence_score = bestCandidateScore icds n.display_name ∧
        mNew.notes = some (autoNote (bestCandidateScore icds n.display_name)) ∧
        threshold ≤ bestCandidateScore icds n.display_name) := by
  unfold autoStep
  cases hbm : (icds.foldl (bestStep n.display_name threshold) (none, 0)).1 with
  | none =>
    simp [hbm]
  | some bm =>
    obtain ⟨hbmem, hb2, hthr, hpos⟩ := (bestFold_spec n.display_name threshold icds).2 bm hbm
    obtain ⟨n', hn'⟩ := findNamasteActive_exists acc.1 n.code hn
    obtain ⟨t', ht'⟩ := findIcd11Active_exists acc.1 bm.icd_id
      ⟨bm, (hicds bm hbmem).1, rfl, (hicds bm hbmem).2⟩
    simp only [hbm, hb2]
    cases hpair : findActiveMappingPair acc.1 n.code t'.icd_id with
    | some m0 =>
      rw [createMapping_skips acc.1 acc.2 n.code bm.icd_id "equivalent"
        (some (bestCandidateScore icds n.display_name))
        (some (autoNote (bestCandidateScore icds n.display_name))) n' hn' t' ht' m0 hpair]
      exact ⟨rfl, rfl, rfl, Or.inl rfl⟩
    | none =>
      rw [createMapping_creates acc.1 acc.2 n.code bm.icd_id "equivalent"
        (some (bestCandidateScore icds n.display_name))
        (some (autoNote (bestCandidateScore icds n.display_name))) n' hn' t' ht' hpair]
      refine ⟨rfl, rfl, rfl, Or.inr ⟨mkMapping acc.1 n.code n' t' "equivalent"
        (some (bestCandidateScore icds n.display_name))
        (some (autoNote (bestCandidateScore icds n.display_name))), rfl, rfl, rfl, ?_, rfl,
        hthr⟩⟩
      simp [mkMapping, ne_of_gt hpos]

/-- Folding the automatic-mapping step over distinct active sources keeps
the tables and the error count and appends one mapping per source at
most, each carrying the source's best candidate score. -/
theorem autoFold_spec (threshold : ℚ) (icds : List ICD11Entry) :
    ∀ (ns : List NamasteEntry) (acc : Db × Stats),
      (∀ x ∈ ns, x ∈ acc.1.namaste ∧ x.status = "active") →
      (∀ x ∈ icds, x ∈ acc.1.icd11 ∧ x.status = "active") →
      (ns.map NamasteEntry.code).Nodup →
      (ns.foldl (autoStep threshold icds) acc).1.namaste = acc.1.namaste ∧
      (ns.foldl (autoStep threshold icds) acc).1.icd11 = acc.1.icd11 ∧
      (ns.foldl (autoStep threshold icds) acc).2.errors = acc.2.errors ∧
      ∃ added : List Mapping,
        (ns.foldl (autoStep threshold icds) acc).1.mappings = acc.1.mappings ++ added ∧
        (added.map Mapping.namaste_code).Nodup ∧
        ∀ m ∈ added, ∃ x ∈ ns, x.status = "active" ∧ m.namaste_code = x.code ∧
          m.mapping_type = "equivalent" ∧
          m.confidence_score = bestCandidateScore icds x.display_name ∧
          m.notes = some (autoNote (bestCandidateScore icds x.display_name)) ∧
          threshold ≤ bestCandidateScore icds x.display_name
  | [], acc, _, _, _ => ⟨rfl, rfl, rfl, [], by simp, List.nodup_nil, by simp⟩
  | n :: ns, acc, hns, hicds, hnd => by
    have hstep := autoStep_spec threshold icds acc n
      ⟨n, (hns n (List.mem_cons_self n ns)).1, rfl, (hns n (List.mem_cons_self n ns)).2⟩ hicds
    have hns' : ∀ x ∈ ns, x ∈ (autoStep threshold icds acc n).1.namaste ∧
        x.status = "active" := by
      intro x hx
      rw [hstep.1]
      exact hns x (List.mem_cons_of_mem n hx)
    have hicds' : ∀ x ∈ icds, x ∈ (autoStep threshold icds acc n).1.icd11 ∧
        x.status = "active" := by
      intro x hx
      rw [hstep.2.1]
      exact hicds x hx
    rw [List.map_cons] at hnd
    have hncode : n.code ∉ ns.map NamasteEntry.code := (List.nodup_cons.mp hnd).1
    have hnd' : (ns.map NamasteEntry.code).Nodup := (List.nodup_cons.mp hnd).2
    have ih := autoFold_spec threshold icds ns (autoStep threshold icds acc n) hns' hicds' hnd'
    rw [List.foldl_cons]
    refine ⟨by rw [ih.1, hstep.1], by rw [ih.2.1, hstep.2.1],
      by rw [ih.2.2.1, hstep.2.2.1], ?_⟩
    obtain ⟨added2, hmaps2, hnd2, hprops2⟩ := ih.2.2.2
    rcases hstep.2.2.2 with hsame | ⟨mNew, hmNew, hcode, htype, hconf, hnote, hthr⟩
    · refine ⟨added2, by rw [hmaps2, hsame], hnd2, ?_⟩
      intro m hm
      obtain ⟨x, hx, rest⟩ := hprops2 m hm
      exact ⟨x, List.mem_cons_of_mem n hx, rest⟩
    · refine ⟨mNew :: added2, ?_, ?_, ?_⟩
      · rw [hmaps2, hmNew, List.append_assoc]
        rfl
      · rw [List.map_cons, List.nodup_cons]
        refine ⟨?_, hnd2⟩
        rw [hcode]
        intro hmem
        obtain ⟨m2, hm2mem, hm2code⟩ := List.mem_map.mp hmem
        obtain ⟨x, hxmem, _, hm2c, _⟩ := hprops2 m2 hm2mem
        exact hncode (List.mem_map.mpr ⟨x, hxmem, by rw [← hm2c, hm2code]⟩)
      · intro m hm
        rcases List.mem_cons.mp hm with h | h
        · subst h
          exact ⟨n, List.mem_cons_self n ns, (hns n (List.mem_cons_self n ns)).2,
            hcode, htype, hconf, hnote, hthr⟩
        · obtain ⟨x, hx, rest⟩ := hprops2 m h
          exact ⟨x, List.mem_cons_of_mem n hx, rest⟩

/-- C4: with unique source codes, the bulk automatic-mapping run records
no error and appends at most one mapping per active source entry, each
with mappingType equivalent, confidence equal to the source's best
candidate score, a note rendering that score, and a best score at or
above the threshold; an active source whose best candidate score is
below the threshold contributes no mapping. -/
theorem createAutomaticMappings_spec (db : Db) (threshold : ℚ)
    (hnd : (db.namaste.map NamasteEntry.code).Nodup) :
    (MappingCreator.createAutomaticMappings db threshold).2.errors = 0 ∧
    ∃ added : List Mapping,
      (MappingCreator.createAutomaticMappings db threshold).1.mappings =
        db.mappings ++ added ∧
      (added.map Mapping.namaste_code).Nodup ∧
      (∀ m ∈ added, ∃ n ∈ db.namaste, n.status = "active" ∧ m.namaste_code = n.code ∧
        m.mapping_type = "equivalent" ∧
        m.confidence_score = bestCandidateScore (tm2Candidates db) n.display_name ∧
        m.notes = some (autoNote (bestCandidateScore (tm2Candidates db) n.display_name)) ∧
        threshold ≤ bestCandidateScore (tm2Candidates db) n.display_name) ∧
      (∀ n ∈ db.namaste, n.status = "active" →
        bestCandidateScore (tm2Candidates db) n.display_name < threshold →
        ∀ m ∈ added, m.namaste_code ≠ n.code) := by
  have hns : ∀ x ∈ (db.namaste.filter fun n => n.status == "active"),
      x ∈ (db, Stats.zero).1.namaste ∧ x.status = "active" := by
    intro x hx
    have h := List.mem_filter.mp hx
    exact ⟨h.1, by simpa using h.2⟩
  have hicds : ∀ x ∈ tm2Candidates db, x ∈ (db, Stats.zero).1.icd11 ∧ x.status = "active" := by
    intro x hx
    have h := List.mem_filter.mp hx
    refine ⟨h.1, ?_⟩
    have h2 := h.2
    simp only [Bool.and_eq_true, beq_iff_eq] at h2
    exact h2.1
  have hndf : ((db.namaste.filter fun n => n.status == "active").map
      NamasteEntry.code).Nodup :=
    List.Nodup.sublist (List.Sublist.map _ (List.filter_sublist _)) hnd
  have h := autoFold_spec threshold (tm2Candidates db)
    (db.namaste.filter fun n => n.status == "active") (db, Stats.zero) hns hicds hndf
  unfold MappingCreator.createAutomaticMappings
  refine ⟨by rw [h.2.2.1]; rfl, ?_⟩

  obtain ⟨added, hmaps, hadnd, hprops⟩ := h.2.2.2
  refine ⟨added, hmaps, hadnd, ?_, ?_⟩
  · intro m hm
    obtain ⟨x, hx, rest⟩ := hprops m hm
    exact ⟨x, (List.mem_filter.mp hx).1, rest⟩
  · intro n hn hna hbelow m hm hcode
    obtain ⟨x, hx, _, hmcode, _, _, _, hthr⟩ := hprops m hm
    have hxdb := (List.mem_filter.mp hx).1
    have hxn : x = n := List.inj_on_of_nodup_map hnd hxdb hn (by rw [← hmcode, hcode])
    rw [hxn] at hthr
    linarith

/-- Store for the C4 witness: both candidate titles contain vata, the best
scores 1 and a mapping is created at threshold 95/100. -/
def dbC4 : Db :=
  { namaste := [⟨"NAM001", "Vata Prakopa", "ayurveda", "active"⟩]
    icd11 := [⟨"I1", "C1", "Anxiety vata condition", "tm2", "active"⟩,
              ⟨"I2", "C2", "Vata Prakopa", "tm2", "active"⟩]
    mappings := []
    nextId := 1 }

/-- C4 witness: the bulk-run guarantees instantiated on dbC4 at threshold
95/100. -/
theorem createAutomaticMappings_spec_witness :
    (MappingCreator.createAutomaticMappings dbC4 (95/100)).2.errors = 0 ∧
    ∃ added : List Mapping,
      (MappingCreator.createAutomaticMappings dbC4 (95/100)).1.mappings =
        dbC4.mappings ++ added ∧
      (added.map Mapping.namaste_code).Nodup ∧
      (∀ m ∈ added, ∃ n ∈ dbC4.namaste, n.status = "active" ∧ m.namaste_code = n.code ∧
        m.mapping_type = "equivalent" ∧
        m.confidence_score = bestCandidateScore (tm2Candidates dbC4) n.display_name ∧
        m.notes = some (autoNote (bestCandidateScore (tm2Candidates dbC4) n.display_name)) ∧
        95/100 ≤ bestCandidateScore (tm2Candidates dbC4) n.display_name) ∧
      (∀ n ∈ dbC4.namaste, n.status = "active" →
        bestCandidateScore (tm2Candidates dbC4) n.display_name < 95/100 →
        ∀ m ∈ added, m.namaste_code ≠ n.code) :=
  createAutomaticMappings_spec dbC4 (95/100) (by decide)

end ScorerModel
